import Mathlib

/-!
Shallow embedding of the recipe-sharing backend (Express + Mongoose).

Source files embedded:
- `src/models/Recipe.js` — the Recipe schema, its `calculateAverageRating`
  instance method, the `pre('save')` hook, and the `totalTime` virtual;
- `src/unnamed/part_001` — the recipe controller (create / list / update /
  delete / rate / my-recipes / favorites handlers);
- `src/unnamed/part_002` — the router (used only to know which handlers are
  public and which are authenticated).

Modelling conventions:
- Mongo ObjectIds are modelled as `Nat`; `toString()` comparison of two ids
  is modelled as equality on `Nat`.
- JS numbers are modelled as `Nat` where the schema constrains them to
  non-negative integers (times, counts, pages) and as `ℚ` where fractional
  values occur (`averageRating`); `Math.round` on a non-negative value is
  Mathlib's `round` (both are ⌊x + 1/2⌋).
- The document store is an association list from id to document; a Mongoose
  `findById` is `List.lookup`.
- A handler's effect is a pair: the HTTP response (as `Except ApiError _`)
  and the persisted store after the handler ran.
-/

namespace RecipeApp

/-- One entry of `recipeSchema.ratings`: `{user, rating, comment}`
(`src/models/Recipe.js` lines 85–101). -/
structure Rating where
  user : Nat
  rating : Int
  comment : String
deriving DecidableEq, Repr

/-- Schema path `recipeSchema.cookingTime`: `{prep, cook}` (`src/models/Recipe.js`
lines 39–50). -/
structure CookingTime where
  prep : Nat
  cook : Nat
deriving DecidableEq, Repr

/-- One entry of `recipeSchema.ingredients` (`src/models/Recipe.js`
lines 15–28). -/
structure Ingredient where
  name : String
  quantity : String
  unit : String
deriving DecidableEq, Repr

/-- One entry of `recipeSchema.instructions` (`src/models/Recipe.js`
lines 29–38). -/
structure InstructionStep where
  stepNumber : Nat
  instruction : String
deriving DecidableEq, Repr

/-- Schema path `recipeSchema.nutritionalInfo` (`src/models/Recipe.js` lines 120–126):
all five numbers optional. -/
structure NutritionalInfo where
  protein : Option ℚ := none
  carbs : Option ℚ := none
  fat : Option ℚ := none
  fiber : Option ℚ := none
  sugar : Option ℚ := none
deriving DecidableEq, Repr

/-- A Recipe document (`src/models/Recipe.js` lines 3–129).  `totalTime` is a
virtual (computed on read, lines 150–152), so it is deliberately NOT a field
here.  `createdAt` is the system-managed timestamp (`timestamps: true`). -/
structure Recipe where
  title : String
  description : String
  ingredients : List Ingredient
  instructions : List InstructionStep
  cookingTime : CookingTime
  servings : Nat
  difficulty : String
  cuisine : String
  dietType : String
  calories : Option Nat := none
  image : String
  author : Nat
  ratings : List Rating := []
  averageRating : ℚ := 0
  totalRatings : Nat := 0
  isPublic : Bool := true
  tags : List String := []
  nutritionalInfo : NutritionalInfo := {}
  createdAt : Nat := 0
deriving DecidableEq, Repr

/-- The reduce `this.ratings.reduce((sum, rating) => sum + rating.rating, 0)`
(`src/models/Recipe.js` line 137). -/
def ratingSum (rs : List Rating) : Int :=
  rs.foldl (fun sum r => sum + r.rating) 0

/-- Method `recipeSchema.methods.calculateAverageRating` (`src/models/Recipe.js`
lines 132–141): if the ratings array is empty, set both aggregates to zero;
otherwise `averageRating = Math.round((total / length) * 10) / 10` and
`totalRatings = length`. -/
def calculateAverageRating (r : Recipe) : Recipe :=
  if r.ratings.length = 0 then
    { r with averageRating := 0, totalRatings := 0 }
  else
    let total : Int := ratingSum r.ratings
    { r with
      averageRating := ((round (((total : ℚ) / (r.ratings.length : ℚ)) * 10) : ℤ) : ℚ) / 10,
      totalRatings := r.ratings.length }

/-- The `totalTime` virtual (`src/models/Recipe.js` lines 150–152):
`this.cookingTime.prep + this.cookingTime.cook`, computed on read, never
stored on the document. -/
def totalTime (r : Recipe) : Nat :=
  r.cookingTime.prep + r.cookingTime.cook

/-- The error kinds of the spec's taxonomy (§7), as produced by the
controller: `notFound` is the 404 response, `forbidden` the 403 ownership
refusal, `conflict` the 400 "Recipe already in favorites" response,
`validation` a Mongoose ValidationError surfaced through the catch block,
`badRequest` the 400 malformed-id response. -/
inductive ApiError where
  | notFound
  | forbidden
  | conflict
  | validation
  | badRequest
deriving DecidableEq, Repr

/-- Mongoose required/enums/min validation of the Recipe schema
(`src/models/Recipe.js` lines 3–129).  For a `String` path, Mongoose's
default `checkRequired` is `v != null && v.length > 0`, so a present but
EMPTY string fails a `required: true` constraint — this is what makes
`image: ''` invalid. -/
def validRecipe (r : Recipe) : Bool :=
  (r.title ≠ "" : Bool) && (r.title.length ≤ 100 : Bool)
  && (r.description ≠ "" : Bool) && (r.description.length ≤ 500 : Bool)
  && (1 ≤ r.cookingTime.prep : Bool) && (1 ≤ r.cookingTime.cook : Bool)
  && (1 ≤ r.servings : Bool)
  && (r.difficulty ∈ ["Easy", "Medium", "Hard"] : Bool)
  && (r.cuisine ≠ "" : Bool) && (r.cuisine.length ≤ 50 : Bool)
  && (r.dietType ∈ ["Vegetarian", "Vegan", "Gluten-Free", "Keto", "Paleo",
        "Low-Carb", "High-Protein", "Regular"] : Bool)
  && (match r.calories with | none => true | some c => 1 ≤ c)
  && (r.image ≠ "" : Bool)
  && (r.ratings.all fun e => (1 ≤ e.rating : Bool) && (e.rating ≤ 5 : Bool)
        && (e.comment.length ≤ 200 : Bool))
  && (0 ≤ r.averageRating : Bool) && (r.averageRating ≤ 5 : Bool)

/-- Mongoose `document.save()`: Mongoose runs validation, then the `pre('save')` hook
(`src/models/Recipe.js` lines 144–147) which recomputes the rating
aggregates, then persists.  A ValidationError aborts the save and is caught
by the handler's catch block. -/
def saveRecipe (r : Recipe) : Except ApiError Recipe :=
  if validRecipe r then .ok (calculateAverageRating r) else .error .validation

/-- The persisted recipe collection: id ↦ document. -/
abbrev Store := List (Nat × Recipe)

/-- Overwrite the document stored under `id` (the effect of a successful
Mongoose write on an existing document). -/
def storeSet (s : Store) (id : Nat) (r : Recipe) : Store :=
  s.map fun p => if p.1 = id then (id, r) else p

/-- The pagination metadata object built by `getRecipes` / `getUserRecipes`
(`src/unnamed/part_001` lines 122, 128–134 and 379, 385–391). -/
structure Pagination where
  currentPage : Nat
  totalPages : Nat
  totalRecipes : Nat
  hasNextPage : Bool
  hasPrevPage : Bool
deriving DecidableEq, Repr

/-- Computation `totalPages = Math.ceil(total / limit)`, then
`hasNextPage: page < totalPages`, `hasPrevPage: page > 1`
(`src/unnamed/part_001` lines 122 and 128–134).  `Math.ceil` of the real
quotient is modelled as the rational ceiling. -/
def paginationMeta (total page limit : Nat) : Pagination :=
  let totalPages : Nat := (⌈(total : ℚ) / (limit : ℚ)⌉).toNat
  { currentPage := page
    totalPages := totalPages
    totalRecipes := total
    hasNextPage := decide (page < totalPages)
    hasPrevPage := decide (page > 1) }

/-- The body of a create request after the handler's JSON-decoding step
(`src/unnamed/part_001` lines 8–28): structured fields already parsed.
`file` is `req.file` from the upload middleware: `some filename` when an
image was uploaded, `none` otherwise. -/
structure CreateInput where
  title : String
  description : String
  ingredients : List Ingredient
  instructions : List InstructionStep
  cookingTime : CookingTime
  servings : Nat
  difficulty : String
  cuisine : String
  dietType : String
  calories : Option Nat := none
  tags : Option (List String) := none
  nutritionalInfo : Option NutritionalInfo := none
  file : Option String := none
deriving DecidableEq, Repr

/-- The `new Recipe({...})` construction in `createRecipe`
(`src/unnamed/part_001` lines 30–45): image is `/uploads/<filename>` when a
file was uploaded, else the empty string; author is the caller; tags and
nutritionalInfo default when absent; the remaining schema fields take their
schema defaults.  `now` is the timestamp Mongoose assigns on creation. -/
def newRecipeFromCreate (inp : CreateInput) (callerId : Nat) (now : Nat) : Recipe :=
  { title := inp.title
    description := inp.description
    ingredients := inp.ingredients
    instructions := inp.instructions
    cookingTime := inp.cookingTime
    servings := inp.servings
    difficulty := inp.difficulty
    cuisine := inp.cuisine
    dietType := inp.dietType
    calories := inp.calories
    image := match inp.file with
      | some filename => "/uploads/" ++ filename
      | none => ""
    author := callerId
    tags := inp.tags.getD []
    nutritionalInfo := inp.nutritionalInfo.getD {}
    createdAt := now }

/-- The `createRecipe` handler (`src/unnamed/part_001` lines 6–63): build the
document, `recipe.save()`; on a ValidationError the catch block answers and
nothing is persisted; on success the new document is stored under a fresh
id. -/
def createRecipe (inp : CreateInput) (callerId : Nat) (now : Nat)
    (freshId : Nat) (store : Store) : Except ApiError Recipe × Store :=
  match saveRecipe (newRecipeFromCreate inp callerId now) with
  | .error e => (.error e, store)
  | .ok saved => (.ok saved, store ++ [(freshId, saved)])

/-- Object `updates = \x7b ...req.body \x7d` in the update handler
(`src/unnamed/part_001` line 230): any subset of document fields may appear
in the payload; `none` means the field is absent from the body. -/
structure RecipeUpdates where
  title : Option String := none
  description : Option String := none
  ingredients : Option (List Ingredient) := none
  instructions : Option (List InstructionStep) := none
  cookingTime : Option CookingTime := none
  servings : Option Nat := none
  difficulty : Option String := none
  cuisine : Option String := none
  dietType : Option String := none
  calories : Option Nat := none
  image : Option String := none
  tags : Option (List String) := none
  nutritionalInfo : Option NutritionalInfo := none
  ratings : Option (List Rating) := none
  averageRating : Option ℚ := none
  totalRatings : Option Nat := none
  isPublic : Option Bool := none
deriving DecidableEq, Repr

/-- Field-wise merge of an update payload into a stored document: what
`findByIdAndUpdate(id, updates, ...)` writes for each path present in
`updates`. -/
def applyUpdates (r : Recipe) (u : RecipeUpdates) : Recipe :=
  { r with
    title := u.title.getD r.title
    description := u.description.getD r.description
    ingredients := u.ingredients.getD r.ingredients
    instructions := u.instructions.getD r.instructions
    cookingTime := u.cookingTime.getD r.cookingTime
    servings := u.servings.getD r.servings
    difficulty := u.difficulty.getD r.difficulty
    cuisine := u.cuisine.getD r.cuisine
    dietType := u.dietType.getD r.dietType
    calories := u.calories <|> r.calories
    image := u.image.getD r.image
    tags := u.tags.getD r.tags
    nutritionalInfo := u.nutritionalInfo.getD r.nutritionalInfo
    ratings := u.ratings.getD r.ratings
    averageRating := u.averageRating.getD r.averageRating
    totalRatings := u.totalRatings.getD r.totalRatings
    isPublic := u.isPublic.getD r.isPublic }

/-- Query `Recipe.findByIdAndUpdate(id, updates, { new: true, runValidators:
true })` (`src/unnamed/part_001` lines 254–258).  This is a QUERY-level
Mongoose operation: it runs update validators but does NOT run document
middleware, so the `pre('save')` hook — and with it
`calculateAverageRating` — is not invoked.  The merged document is
validated and persisted as-is. -/
def findByIdAndUpdate (store : Store) (id : Nat) (u : RecipeUpdates) :
    Except ApiError Recipe × Store :=
  match store.lookup id with
  | none => (.error .notFound, store)
  | some r =>
    let merged := applyUpdates r u
    if validRecipe merged then (.ok merged, storeSet store id merged)
    else (.error .validation, store)

/-- The `updateRecipe` handler (`src/unnamed/part_001` lines 211–273): load by
id (404 if absent); 403 unless `recipe.author.toString() ===
req.user._id.toString()`; when a new file was uploaded replace
`updates.image`; then persist through `findByIdAndUpdate`. -/
def updateRecipe (store : Store) (callerId : Nat) (id : Nat)
    (u : RecipeUpdates) (file : Option String) : Except ApiError Recipe × Store :=
  match store.lookup id with
  | none => (.error .notFound, store)
  | some recipe =>
    if recipe.author ≠ callerId then (.error .forbidden, store)
    else
      let u' := match file with
        | some filename => { u with image := some ("/uploads/" ++ filename) }
        | none => u
      findByIdAndUpdate store id u'

/-- The `deleteRecipe` handler (`src/unnamed/part_001` lines 276–309): load by
id (404 if absent); 403 unless the caller is the author; else
`findByIdAndDelete`. -/
def deleteRecipe (store : Store) (callerId : Nat) (id : Nat) :
    Except ApiError Unit × Store :=
  match store.lookup id with
  | none => (.error .notFound, store)
  | some recipe =>
    if recipe.author ≠ callerId then (.error .forbidden, store)
    else (.ok (), store.filter fun p => p.1 ≠ id)

/-- The ratings-array upsert inside `rateRecipe` (`src/unnamed/part_001`
lines 324–343): `findIndex` on rater identity; if found, overwrite that
array slot with the new `{user, rating, comment}` subdocument; else push. -/
def upsertRating (ratings : List Rating) (userId : Nat) (rating : Int)
    (comment : String) : List Rating :=
  match ratings.findIdx? (fun e => e.user == userId) with
  | some i => ratings.set i { user := userId, rating := rating, comment := comment }
  | none => ratings ++ [{ user := userId, rating := rating, comment := comment }]

/-- The `rateRecipe` handler (`src/unnamed/part_001` lines 312–361): load by id
(404 if absent); upsert the caller's rating into the array; `recipe.save()`
(which re-runs the aggregate computation through the pre-save hook) and
persist.  `comment? || ''` is the `comment` argument's default. -/
def rateRecipe (store : Store) (callerId : Nat) (id : Nat) (rating : Int)
    (comment : String) : Except ApiError Recipe × Store :=
  match store.lookup id with
  | none => (.error .notFound, store)
  | some recipe =>
    match saveRecipe { recipe with
        ratings := upsertRating recipe.ratings callerId rating comment } with
    | .error e => (.error e, store)
    | .ok saved => (.ok saved, storeSet store id saved)

/-- The filter parameters of the public list query
(`src/unnamed/part_001` lines 68–94), after the handler's own numeric
parsing; `none` means the query parameter is absent. -/
structure ListFilter where
  cuisine : Option String := none
  dietType : Option String := none
  difficulty : Option String := none
  minRating : Option ℚ := none
  maxCalories : Option Nat := none
  maxTime : Option Nat := none
deriving DecidableEq, Repr

/-- The Mongo filter object built by `getRecipes` (`src/unnamed/part_001`
lines 82–94), as a predicate on documents:
`{ isPublic: true }` always; exact match on cuisine/dietType/difficulty
unless the value is the sentinel `"All"`; `averageRating ≥ minRating`;
`calories ≤ maxCalories` (a document with no `calories` path does not match
a `$lte` condition); `$expr`: `prep + cook ≤ maxTime`. -/
def matchesFilter (f : ListFilter) (r : Recipe) : Bool :=
  r.isPublic
  && (match f.cuisine with
      | none => true
      | some c => if c = "All" then true else r.cuisine == c)
  && (match f.dietType with
      | none => true
      | some d => if d = "All" then true else r.dietType == d)
  && (match f.difficulty with
      | none => true
      | some d => if d = "All" then true else r.difficulty == d)
  && (match f.minRating with
      | none => true
      | some q => q ≤ r.averageRating)
  && (match f.maxCalories with
      | none => true
      | some n => match r.calories with
        | none => false
        | some c => c ≤ n)
  && (match f.maxTime with
      | none => true
      | some t => r.cookingTime.prep + r.cookingTime.cook ≤ t)

/-- The `getRecipes` handler, list part (`src/unnamed/part_001` lines 66–136):
filter the collection, sort by the caller-selected field and direction
(modelled as the Boolean comparison `le` the `sortBy`/`sortOrder` query
parameters denote), then `skip((page-1)*limit).limit(limit)`. -/
def getRecipesList (store : Store) (f : ListFilter)
    (le : Recipe → Recipe → Bool) (page limit : Nat) : List Recipe :=
  ((((store.map Prod.snd).filter (matchesFilter f)).mergeSort le).drop
    ((page - 1) * limit)).take limit

/-- The `getUserRecipes` handler, list part (`src/unnamed/part_001` lines
364–402): `Recipe.find({ author: req.user._id })`, always sorted
`{ createdAt: -1 }` (newest first — the only sort; the handler reads no
sort parameter from the query), then `skip((page-1)*limit).limit(limit)`. -/
def getUserRecipes (store : Store) (callerId : Nat) (page limit : Nat) :
    List Recipe :=
  ((((store.map Prod.snd).filter (fun r => r.author == callerId)).mergeSort
      (fun a b => b.createdAt ≤ a.createdAt)).drop
    ((page - 1) * limit)).take limit

/-- The `addToFavorites` handler (`src/unnamed/part_001` lines 405–440): 404 if
the recipe does not exist; 400 "Recipe already in favorites" (the spec's
Conflict error kind) if the id is already in the user's `favoriteRecipes`,
leaving the sequence untouched; else push and save.  Returns the response
and the persisted favorites sequence. -/
def addToFavorites (store : Store) (favorites : List Nat) (id : Nat) :
    Except ApiError Unit × List Nat :=
  match store.lookup id with
  | none => (.error .notFound, favorites)
  | some _ =>
    if favorites.contains id then (.error .conflict, favorites)
    else (.ok (), favorites ++ [id])

/-- The `removeFromFavorites` handler (`src/unnamed/part_001` lines 443–465):
`user.favoriteRecipes.filter(fid => fid.toString() !== req.params.id)`,
unconditionally, then save.  Always a success response. -/
def removeFromFavorites (favorites : List Nat) (id : Nat) : List Nat :=
  favorites.filter fun fid => fid ≠ id

/-- A concrete create-request body used as test data: the spec's example
recipe with cookingTime `{prep: 10, cook: 20}`. -/
def sampleInput : CreateInput :=
  { title := "Pasta"
    description := "Simple pasta"
    ingredients := [⟨"Pasta", "200", "g"⟩]
    instructions := [⟨1, "Boil the pasta"⟩]
    cookingTime := ⟨10, 20⟩
    servings := 2
    difficulty := "Easy"
    cuisine := "Italian"
    dietType := "Regular"
    file := some "pasta.png" }

/-- A concrete stored recipe used as test data: author 1, public, no
ratings yet, cookingTime `{prep: 10, cook: 20}`. -/
def sampleRecipe : Recipe :=
  { title := "Pasta"
    description := "Simple pasta"
    ingredients := [⟨"Pasta", "200", "g"⟩]
    instructions := [⟨1, "Boil the pasta"⟩]
    cookingTime := ⟨10, 20⟩
    servings := 2
    difficulty := "Easy"
    cuisine := "Italian"
    dietType := "Regular"
    image := "/uploads/pasta.png"
    author := 1 }

/-- C8: for every recipe, the derived `totalTime` equals
`cookingTime.prep + cookingTime.cook` (it is a virtual computed on read —
`Recipe` has no such stored field); in particular any recipe created with
cookingTime `{prep: 10, cook: 20}` reads `totalTime` as `30`. -/
theorem totalTime_eq_prep_add_cook :
    (∀ r : Recipe, totalTime r = r.cookingTime.prep + r.cookingTime.cook) ∧
    (∀ (inp : CreateInput) (callerId now : Nat),
      totalTime (newRecipeFromCreate inp callerId now)
        = inp.cookingTime.prep + inp.cookingTime.cook) ∧
    totalTime (newRecipeFromCreate sampleInput 1 0) = 30 := by
  refine ⟨fun r => rfl, fun inp callerId now => rfl, rfl⟩

/-- C6: `removeFromFavorites` removes every occurrence of the id, is a
no-op success when the id is absent, and is idempotent. -/
theorem removeFromFavorites_spec (favorites : List Nat) (id : Nat) :
    id ∉ removeFromFavorites favorites id ∧
    (id ∉ favorites → removeFromFavorites favorites id = favorites) ∧
    removeFromFavorites (removeFromFavorites favorites id) id
      = removeFromFavorites favorites id := by
  refine ⟨?_, ?_, ?_⟩
  · simp [removeFromFavorites]
  · intro h
    refine List.filter_eq_self.2 fun a ha => ?_
    simp only [ne_eq, decide_eq_true_eq]
    rintro rfl
    exact h ha
  · simp [removeFromFavorites, List.filter_filter]

/-- Witness for C6 at a concrete favorites sequence. -/
theorem removeFromFavorites_spec_witness :
    7 ∉ removeFromFavorites [3, 7, 7, 9] 7 ∧
    removeFromFavorites [3, 9] 7 = [3, 9] ∧
    removeFromFavorites (removeFromFavorites [3, 7, 7, 9] 7) 7
      = removeFromFavorites [3, 7, 7, 9] 7 :=
  ⟨(removeFromFavorites_spec [3, 7, 7, 9] 7).1,
   (removeFromFavorites_spec [3, 9] 7).2.1 (by decide),
   (removeFromFavorites_spec [3, 7, 7, 9] 7).2.2⟩

/-- C4: when the recipe exists, `addToFavorites` answers the Conflict error
and leaves the favorites sequence unchanged if the id is already a member;
otherwise it appends the id; and it preserves freedom from duplicates. -/
theorem addToFavorites_spec (store : Store) (favorites : List Nat) (id : Nat)
    (r : Recipe) (hr : store.lookup id = some r) :
    (id ∈ favorites → addToFavorites store favorites id = (.error .conflict, favorites)) ∧
    (id ∉ favorites → addToFavorites store favorites id = (.ok (), favorites ++ [id])) ∧
    (favorites.Nodup → (addToFavorites store favorites id).2.Nodup) := by
  refine ⟨fun hmem => ?_, fun hmem => ?_, fun hnd => ?_⟩
  · simp [addToFavorites, hr, hmem]
  · simp [addToFavorites, hr, hmem]
  · by_cases hmem : id ∈ favorites
    · simpa [addToFavorites, hr, hmem] using hnd
    · simp [addToFavorites, hr, hmem, List.nodup_append, hnd]

/-- Witness for C4: a one-recipe store; adding id 5 to favorites `[5]` is
refused with Conflict and adding it to `[]` appends it. -/
theorem addToFavorites_spec_witness :
    addToFavorites [(5, sampleRecipe)] [5] 5 = (.error .conflict, [5]) ∧
    addToFavorites [(5, sampleRecipe)] [] 5 = (.ok (), [5]) :=
  ⟨(addToFavorites_spec [(5, sampleRecipe)] [5] 5 sampleRecipe rfl).1 (by decide),
   (addToFavorites_spec [(5, sampleRecipe)] [] 5 sampleRecipe rfl).2.1 (by decide)⟩

/-- C5: for an existing recipe whose author differs from the caller,
`updateRecipe` (for every payload and upload, valid or not) and
`deleteRecipe` answer Forbidden and leave the store untouched. -/
theorem nonAuthor_update_delete_forbidden (store : Store) (callerId id : Nat)
    (u : RecipeUpdates) (file : Option String) (r : Recipe)
    (hr : store.lookup id = some r) (hne : r.author ≠ callerId) :
    updateRecipe store callerId id u file = (.error .forbidden, store) ∧
    deleteRecipe store callerId id = (.error .forbidden, store) := by
  constructor
  · simp [updateRecipe, hr, hne]
  · simp [deleteRecipe, hr, hne]

/-- Witness for C5: recipe 5 is authored by user 1; caller 2 is refused,
with an arbitrary (even invalid) payload. -/
theorem nonAuthor_update_delete_forbidden_witness :
    updateRecipe [(5, sampleRecipe)] 2 5 { title := some "" } none
      = (.error .forbidden, [(5, sampleRecipe)]) ∧
    deleteRecipe [(5, sampleRecipe)] 2 5
      = (.error .forbidden, [(5, sampleRecipe)]) :=
  nonAuthor_update_delete_forbidden [(5, sampleRecipe)] 2 5
    { title := some "" } none sampleRecipe rfl (by decide)

/-- Bridge between the rational ceiling (our model of `Math.ceil`) and
ceiling division on `ℕ`. -/
theorem natCeil_cast_div_eq (total limit : Nat) (h : 0 < limit) :
    ⌈(total : ℚ) / (limit : ℚ)⌉₊ = (total + limit - 1) / limit := by
  rw [← Nat.ceilDiv_eq_add_pred_div]
  have hq : (0 : ℚ) < (limit : ℚ) := by exact_mod_cast h
  apply le_antisymm
  · rw [Nat.ceil_le, div_le_iff₀ hq]
    have h1 : total ≤ limit * (total ⌈/⌉ limit) := by
      have := le_smul_ceilDiv (α := ℕ) (b := total) h
      simpa [smul_eq_mul] using this
    calc (total : ℚ) ≤ ((limit * (total ⌈/⌉ limit) : ℕ) : ℚ) := by exact_mod_cast h1
      _ = ((total ⌈/⌉ limit : ℕ) : ℚ) * (limit : ℚ) := by push_cast; ring
  · rw [ceilDiv_le_iff_le_smul h, smul_eq_mul]
    have h2 : (total : ℚ) ≤ (limit : ℚ) * (⌈(total : ℚ) / (limit : ℚ)⌉₊ : ℚ) := by
      calc (total : ℚ) = (limit : ℚ) * ((total : ℚ) / (limit : ℚ)) := by
            field_simp
        _ ≤ (limit : ℚ) * (⌈(total : ℚ) / (limit : ℚ)⌉₊ : ℚ) :=
            mul_le_mul_of_nonneg_left (Nat.le_ceil _) (le_of_lt hq)
    exact_mod_cast h2

/-- C3: for every positive page size, the pagination metadata satisfies
`totalPages = ceil(total / limit)` (equivalently the integer formula
`(total + limit - 1) / limit`), `hasNextPage ↔ page < totalPages` and
`hasPrevPage ↔ page > 1`. -/
theorem paginationMeta_spec (total page limit : Nat) (h : 0 < limit) :
    (paginationMeta total page limit).totalPages = (total + limit - 1) / limit ∧
    ((paginationMeta total page limit).hasNextPage = true
      ↔ page < (paginationMeta total page limit).totalPages) ∧
    ((paginationMeta total page limit).hasPrevPage = true ↔ page > 1) := by
  refine ⟨?_, by simp [paginationMeta], by simp [paginationMeta]⟩
  show (⌈(total : ℚ) / (limit : ℚ)⌉).toNat = _
  rw [Int.ceil_toNat, natCeil_cast_div_eq total limit h]

/-- Witness for C3 at `total = 25`, `page = 2`, `limit = 12`. -/
theorem paginationMeta_spec_witness :
    (paginationMeta 25 2 12).totalPages = (25 + 12 - 1) / 12 ∧
    ((paginationMeta 25 2 12).hasNextPage = true
      ↔ 2 < (paginationMeta 25 2 12).totalPages) ∧
    ((paginationMeta 25 2 12).hasPrevPage = true ↔ 2 > 1) :=
  paginationMeta_spec 25 2 12 (by decide)

/-- Helper: when the head of the ratings array is not the rater's entry, the
upsert recurses past it. -/
theorem upsertRating_cons_of_ne (a : Rating) (rs : List Rating) (uid : Nat)
    (v : Int) (c : String) (ha : (a.user == uid) = false) :
    upsertRating (a :: rs) uid v c = a :: upsertRating rs uid v c := by
  unfold upsertRating
  rw [List.findIdx?_cons, ha]
  simp only [Bool.false_eq_true, if_false, List.findIdx?_start_succ]
  cases hfind : rs.findIdx? (fun e => e.user == uid) with
  | none => simp [hfind]
  | some i => simp [hfind]

/-- Helper: if the rater has at most one entry in the array, after the
upsert the rater's entries are exactly the single new one. -/
theorem upsertRating_filter (rs : List Rating) (uid : Nat) (v : Int)
    (c : String) (h : (rs.filter fun e => e.user == uid).length ≤ 1) :
    (upsertRating rs uid v c).filter (fun e => e.user == uid)
      = [{ user := uid, rating := v, comment := c }] := by
  induction rs with
  | nil => simp [upsertRating]
  | cons a rs ih =>
    by_cases ha : (a.user == uid) = true
    · have hfe : (rs.filter fun e => e.user == uid) = [] := by
        simp only [List.filter_cons, ha, if_true, List.length_cons] at h
        exact List.length_eq_zero.1 (by omega)
      have hup : upsertRating (a :: rs) uid v c
          = { user := uid, rating := v, comment := c } :: rs := by
        unfold upsertRating
        rw [List.findIdx?_cons, ha]
        simp
      rw [hup]
      simp [List.filter_cons, hfe]
    · have ha' : (a.user == uid) = false := by simpa using ha
      rw [upsertRating_cons_of_ne a rs uid v c ha']
      have h' : (rs.filter fun e => e.user == uid).length ≤ 1 := by
        simpa [List.filter_cons, ha'] using h
      simpa [List.filter_cons, ha'] using ih h'

/-- C2: the rating upsert is keyed on rater identity — if the rater has no
entry, the new entry is appended; if `findIndex` locates the rater's entry
at position `i`, that slot is overwritten in place (the array keeps its
length); and rating twice by the same user leaves exactly one entry for
that user, holding the latest value. -/
theorem upsertRating_spec (rs : List Rating) (uid : Nat) (v₁ v₂ : Int)
    (c₁ c₂ : String) (hdup : (rs.filter fun e => e.user == uid).length ≤ 1) :
    ((∀ e ∈ rs, e.user ≠ uid) →
      upsertRating rs uid v₁ c₁ = rs ++ [{ user := uid, rating := v₁, comment := c₁ }]) ∧
    (∀ i, rs.findIdx? (fun e => e.user == uid) = some i →
      ∃ hi : i < rs.length, (rs.get ⟨i, hi⟩).user = uid ∧
        upsertRating rs uid v₁ c₁ = rs.set i { user := uid, rating := v₁, comment := c₁ } ∧
        (upsertRating rs uid v₁ c₁).length = rs.length) ∧
    (upsertRating (upsertRating rs uid v₁ c₁) uid v₂ c₂).filter
        (fun e => e.user == uid) = [{ user := uid, rating := v₂, comment := c₂ }] := by
  refine ⟨fun hnone => ?_, fun i hi => ?_, ?_⟩
  · have : rs.findIdx? (fun e => e.user == uid) = none := by
      rw [List.findIdx?_eq_none_iff]
      intro x hx
      simpa using hnone x hx
    unfold upsertRating
    rw [this]
  · rcases List.findIdx?_eq_some_iff_getElem.1 hi with ⟨hlt, hp, -⟩
    refine ⟨hlt, by simpa using hp, ?_, ?_⟩
    · unfold upsertRating
      rw [hi]
    · unfold upsertRating
      rw [hi, List.length_set]
  · apply upsertRating_filter
    rw [upsertRating_filter rs uid v₁ c₁ hdup]
    simp

/-- Witness for C2: user 7 rates a recipe already rated by user 2, twice;
only the latest entry of user 7 remains. -/
theorem upsertRating_spec_witness :
    (upsertRating (upsertRating [{ user := 2, rating := 4, comment := "ok" }] 7 5 "a")
        7 3 "b").filter (fun e => e.user == 7)
      = [{ user := 7, rating := 3, comment := "b" }] :=
  (upsertRating_spec [{ user := 2, rating := 4, comment := "ok" }] 7 5 3 "a" "b"
    (by decide)).2.2

/-- C9: a create request with no uploaded file stores `image: ''`, which
fails the schema's required-image validation, so `createRecipe` answers a
validation error and persists nothing — it never succeeds without a file. -/
theorem createRecipe_without_file_fails (inp : CreateInput)
    (callerId now freshId : Nat) (store : Store) (hfile : inp.file = none) :
    createRecipe inp callerId now freshId store = (.error .validation, store) := by
  have himg : (newRecipeFromCreate inp callerId now).image = "" := by
    simp [newRecipeFromCreate, hfile]
  have hvalid : validRecipe (newRecipeFromCreate inp callerId now) = false := by
    simp [validRecipe, himg]
  have hsave : saveRecipe (newRecipeFromCreate inp callerId now)
      = .error .validation := by
    unfold saveRecipe
    rw [hvalid]
    simp
  unfold createRecipe
  rw [hsave]

/-- Witness for C9: the sample create request, minus its file. -/
theorem createRecipe_without_file_fails_witness :
    createRecipe { sampleInput with file := none } 1 0 5 []
      = (.error .validation, []) :=
  createRecipe_without_file_fails { sampleInput with file := none } 1 0 5 [] rfl

/-- C7: every recipe returned by the public list operation is public, and
when a `maxTime` filter is given its `prep + cook` is within the bound; in
particular the sample recipe (prep 10, cook 20) is excluded by the
`maxTime = 25` filter and included by the `maxTime = 30` filter. -/
theorem getRecipes_public_and_maxTime (store : Store) (f : ListFilter)
    (le : Recipe → Recipe → Bool) (page limit : Nat) (r : Recipe)
    (hr : r ∈ getRecipesList store f le page limit) :
    (r.isPublic = true ∧ ∀ t, f.maxTime = some t →
      r.cookingTime.prep + r.cookingTime.cook ≤ t) ∧
    matchesFilter { maxTime := some 25 } sampleRecipe = false ∧
    matchesFilter { maxTime := some 30 } sampleRecipe = true := by
  have hmem : r ∈ (store.map Prod.snd).filter (matchesFilter f) := by
    unfold getRecipesList at hr
    exact List.mem_mergeSort.1 (List.mem_of_mem_drop (List.mem_of_mem_take hr))
  have hmatch : matchesFilter f r = true := (List.mem_filter.1 hmem).2
  unfold matchesFilter at hmatch
  simp only [Bool.and_eq_true] at hmatch
  obtain ⟨⟨⟨⟨⟨⟨hpub, -⟩, -⟩, -⟩, -⟩, -⟩, htime⟩ := hmatch
  refine ⟨⟨hpub, fun t ht => ?_⟩, by decide, by decide⟩
  rw [ht] at htime
  simpa using htime

/-- Witness for C7: a store holding the sample public recipe; with a
`maxTime = 30` filter the recipe is returned by the listing. -/
theorem getRecipes_public_and_maxTime_witness :
    (sampleRecipe.isPublic = true ∧
      ∀ t, ({ maxTime := some 30 } : ListFilter).maxTime = some t →
        sampleRecipe.cookingTime.prep + sampleRecipe.cookingTime.cook ≤ t) ∧
    matchesFilter { maxTime := some 25 } sampleRecipe = false ∧
    matchesFilter { maxTime := some 30 } sampleRecipe = true :=
  getRecipes_public_and_maxTime [(5, sampleRecipe)] { maxTime := some 30 }
    (fun _ _ => true) 1 12 sampleRecipe
    (by simp [getRecipesList, List.mergeSort, matchesFilter, sampleRecipe])

/-- C10: the my-recipes listing is ordered by creation time descending
(newest first) — the handler hard-codes the `createdAt: -1` sort and reads
no sort parameter — and every returned recipe belongs to the caller. -/
theorem getUserRecipes_spec (store : Store) (callerId page limit : Nat) :
    (getUserRecipes store callerId page limit).Pairwise
      (fun a b => b.createdAt ≤ a.createdAt) ∧
    ∀ r ∈ getUserRecipes store callerId page limit, r.author = callerId := by
  constructor
  · have H : (((store.map Prod.snd).filter (fun r => r.author == callerId)).mergeSort
        (fun a b : Recipe => decide (b.createdAt ≤ a.createdAt))).Pairwise
        (fun a b : Recipe => decide (b.createdAt ≤ a.createdAt) = true) :=
      List.sorted_mergeSort
        (fun a b c hab hbc => by
          simp only [decide_eq_true_eq] at *
          omega)
        (fun a b => by
          simpa using Nat.le_total b.createdAt a.createdAt)
        ((store.map Prod.snd).filter (fun r => r.author == callerId))
    have hsub : List.Sublist (getUserRecipes store callerId page limit)
        (((store.map Prod.snd).filter (fun r => r.author == callerId)).mergeSort
          (fun a b => decide (b.createdAt ≤ a.createdAt))) := by
      unfold getUserRecipes
      exact (List.take_sublist _ _).trans (List.drop_sublist _ _)
    exact (H.sublist hsub).imp fun h => by simpa using h
  · intro r hr
    unfold getUserRecipes at hr
    have h3 := List.mem_mergeSort.1 (List.mem_of_mem_drop (List.mem_of_mem_take hr))
    simpa using (List.mem_filter.1 h3).2

/-- Witness for C10 on a one-recipe store. -/
theorem getUserRecipes_spec_witness :
    (getUserRecipes [(5, sampleRecipe)] 1 1 12).Pairwise
      (fun a b => b.createdAt ≤ a.createdAt) ∧
    ∀ r ∈ getUserRecipes [(5, sampleRecipe)] 1 1 12, r.author = 1 :=
  getUserRecipes_spec [(5, sampleRecipe)] 1 1 12

/-- The spec's invariant (§3): `averageRating` equals the mean of the
ratings array rounded to one decimal (`0` when the array is empty) and
`totalRatings` equals the array's length. -/
def ratingAggregatesConsistent (r : Recipe) : Prop :=
  r.averageRating = (if r.ratings.length = 0 then 0
    else ((round (((ratingSum r.ratings : ℚ) / (r.ratings.length : ℚ)) * 10) : ℤ) : ℚ) / 10)
  ∧ r.totalRatings = r.ratings.length

/-- An update payload carrying a new ratings array (any field of `req.body`
is passed through to `findByIdAndUpdate` by the update handler). -/
def staleUpdates : RecipeUpdates :=
  { ratings := some [{ user := 2, rating := 5, comment := "" }] }

/-- The document `updateRecipe` persists for `sampleRecipe` under
`staleUpdates`: the ratings array changed but the aggregates kept their old
values, because `findByIdAndUpdate` does not run the `pre('save')` hook. -/
def staleRecipe : Recipe := applyUpdates sampleRecipe staleUpdates

/-- Counterexample to C1 as stated: the author updates recipe 5 with a
payload whose `ratings` is one 5-star entry; the update succeeds and
persists `staleRecipe`, whose `averageRating` is still `0` and
`totalRatings` still `0` — not the mean `5.0` and count `1` of the new
array.  The recomputation does NOT happen on the update operation, because
`findByIdAndUpdate` is query middleware and skips the document `pre('save')`
hook. -/
theorem updateRecipe_stale_aggregates :
    updateRecipe [(5, sampleRecipe)] 1 5 staleUpdates none
      = (.ok staleRecipe, [(5, staleRecipe)]) ∧
    ¬ ratingAggregatesConsistent staleRecipe := by
  constructor
  · rfl
  · intro hc
    have h2 := hc.2
    simp [staleRecipe, applyUpdates, staleUpdates, sampleRecipe] at h2

/-- C1 (amended): the aggregate invariant is (re)established by every
`save()`-persisted write — `createRecipe` and `rateRecipe` both persist
through `save()`, whose `pre('save')` hook recomputes the aggregates — and
is preserved by the update operation only when the update payload touches
none of `ratings`, `averageRating`, `totalRatings` (the update persists via
`findByIdAndUpdate`, which skips the hook). -/
theorem saveRecipe_aggregates_consistent :
    (∀ r r', saveRecipe r = .ok r' → ratingAggregatesConsistent r') ∧
    (∀ (store : Store) (callerId id : Nat) (v : Int) (c : String) r',
      (rateRecipe store callerId id v c).1 = .ok r' →
      ratingAggregatesConsistent r') ∧
    (∀ (r : Recipe) (u : RecipeUpdates), u.ratings = none →
      u.averageRating = none → u.totalRatings = none →
      ratingAggregatesConsistent r →
      ratingAggregatesConsistent (applyUpdates r u)) := by
  have key : ∀ r r', saveRecipe r = .ok r' → ratingAggregatesConsistent r' := by
    intro r r' h
    unfold saveRecipe at h
    split at h
    · cases h
      unfold calculateAverageRating ratingAggregatesConsistent
      by_cases h0 : r.ratings.length = 0
      · simp [h0]
      · simp [h0]
    · cases h
  refine ⟨key, ?_, ?_⟩
  · intro store callerId id v c r' h
    unfold rateRecipe at h
    cases hlook : store.lookup id with
    | none =>
      rw [hlook] at h
      simp at h
    | some recipe =>
      rw [hlook] at h
      dsimp only at h
      cases hsave : saveRecipe { recipe with
          ratings := upsertRating recipe.ratings callerId v c } with
      | error e =>
        rw [hsave] at h
        simp at h
      | ok saved =>
        rw [hsave] at h
        dsimp only at h
        injection h with h
        subst h
        exact key _ _ hsave
  · intro r u h1 h2 h3 hc
    unfold ratingAggregatesConsistent applyUpdates
    simp only [h1, h2, h3, Option.getD_none]
    exact hc

/-- Witness for C1 (amended): saving the sample recipe establishes the
invariant, and an update that touches only the title preserves it. -/
theorem saveRecipe_aggregates_consistent_witness :
    ratingAggregatesConsistent (calculateAverageRating sampleRecipe) ∧
    ratingAggregatesConsistent
      (applyUpdates (calculateAverageRating sampleRecipe) { title := some "Pesto" }) :=
  ⟨saveRecipe_aggregates_consistent.1 sampleRecipe _ rfl,
   saveRecipe_aggregates_consistent.2.2 _ { title := some "Pesto" } rfl rfl rfl
     (saveRecipe_aggregates_consistent.1 sampleRecipe _ rfl)⟩

end RecipeApp
